import Mathlib

/-!
Shallow embedding of the FPB-Store core state machines
(src/Bookstore.tsx and src/types.ts): the cart ledger, the
notification log, the sales aggregation on checkout, and the
incremental recommendation-ingestion pipeline around handleSearch.
Machine-level JavaScript details that the claims do not touch
(wall-clock dates, uuid strings, Math.random draws) are modelled by
explicit counters and an external draw oracle.
-/

namespace FPBStore

/-- Mirrors the Review interface of src/types.ts. -/
structure Review where
  username : String
  comment : String
  rating : Nat
deriving DecidableEq, Repr

/-- Mirrors the Book interface of src/types.ts.  The numeric rating
(a float with one decimal in the source) is modelled in tenths as a
natural number; the optional bestseller flag is modelled as a Bool. -/
structure Book where
  id : String
  title : String
  author : String
  summary : String
  price : String
  coverImageUrl : String
  category : String
  rating : Nat
  reviews : List Review
  publicationDate : String
  pages : Nat
  isBestseller : Bool
deriving DecidableEq, Repr

/-- CartItem = Book & quantity (src/Bookstore.tsx line 18). -/
structure CartItem where
  book : Book
  quantity : Nat
deriving DecidableEq, Repr

/-- Notification record (src/Bookstore.tsx lines 19-24).  The Date
timestamp is modelled as a natural clock value. -/
structure Notification where
  id : String
  message : String
  timestamp : Nat
  read : Bool
deriving DecidableEq, Repr

/-- Sale record pushed by handleConfirmCartPurchase (lines 33, 129). -/
structure SaleRecord where
  bookId : String
  timestamp : Nat
deriving DecidableEq, Repr

/-- The screen selector of the controller (line 31). -/
inductive View where
  | store
  | cart
  | checkout
  | login
  | admin
deriving DecidableEq, Repr

/-! ### Notification log (addNotification, lines 37-45) -/

/-- addNotification: prepend and keep at most 20 entries, i.e. the new
head followed by prev.slice(0, 19) (line 44). -/
def addNotification (n : Notification) (prev : List Notification) : List Notification :=
  n :: prev.take 19

/-- Fold a sequence of pushes over a log, oldest push first. -/
def pushLog (log : List Notification) (ns : List Notification) : List Notification :=
  ns.foldl (fun l n => addNotification n l) log

/-! ### Cart ledger (lines 87-122, 166) -/

/-- handleAddToCart (lines 87-98).  Returns the new cart together with
the list of notification messages emitted (empty on the increment
branch, one "added to cart" message on the insert branch). -/
def handleAddToCart (bookToAdd : Book) (prevCart : List CartItem) :
    List CartItem × List String :=
  match prevCart.find? (fun item => item.book.id == bookToAdd.id) with
  | some _ =>
      (prevCart.map (fun item =>
        if item.book.id == bookToAdd.id then
          { item with quantity := item.quantity + 1 }
        else item), [])
  | none =>
      (prevCart ++ [{ book := bookToAdd, quantity := 1 }],
       ["\"" ++ bookToAdd.title ++ "\" added to cart."])

/-- handleRemoveFromCart (lines 100-102). -/
def handleRemoveFromCart (bookToRemove : Book) (prevCart : List CartItem) : List CartItem :=
  prevCart.filter (fun item => item.book.id != bookToRemove.id)

/-- handleIncreaseQuantity (lines 104-110). -/
def handleIncreaseQuantity (bookId : String) (prevCart : List CartItem) : List CartItem :=
  prevCart.map (fun item =>
    if item.book.id == bookId then { item with quantity := item.quantity + 1 } else item)

/-- handleDecreaseQuantity (lines 112-122): decrement when the found
line has quantity above 1, otherwise filter the id out entirely. -/
def handleDecreaseQuantity (bookId : String) (prevCart : List CartItem) : List CartItem :=
  match prevCart.find? (fun item => item.book.id == bookId) with
  | some itemToDecrease =>
      if itemToDecrease.quantity > 1 then
        prevCart.map (fun item =>
          if item.book.id == bookId then { item with quantity := item.quantity - 1 } else item)
      else
        prevCart.filter (fun item => item.book.id != bookId)
  | none => prevCart.filter (fun item => item.book.id != bookId)

/-- totalCartItems (line 166): reduce summing the quantities. -/
def totalCartItems (cart : List CartItem) : Nat :=
  cart.foldl (fun total item => total + item.quantity) 0

/-- One user-level cart operation. -/
inductive CartOp where
  | add (book : Book)
  | increase (bookId : String)
  | decrease (bookId : String)
  | remove (book : Book)
deriving Repr

/-- Apply one cart operation (the notification side effect of add is
dropped here; the cart component of the result is the new cart). -/
def applyCartOp (cart : List CartItem) (op : CartOp) : List CartItem :=
  match op with
  | .add b => (handleAddToCart b cart).1
  | .increase i => handleIncreaseQuantity i cart
  | .decrease i => handleDecreaseQuantity i cart
  | .remove b => handleRemoveFromCart b cart

/-- Apply a sequence of cart operations, first operation first. -/
def applyCartOps (ops : List CartOp) (cart : List CartItem) : List CartItem :=
  ops.foldl applyCartOp cart

/-- The cart data-model invariant: line ids are pairwise distinct and
every persisted quantity is positive. -/
def CartInv (cart : List CartItem) : Prop :=
  (cart.map (fun item => item.book.id)).Nodup ∧ ∀ item ∈ cart, 0 < item.quantity

/-! ### Sales aggregation (handleConfirmCartPurchase, lines 128-139) -/

/-- The notification message pushed per cart line on checkout
(line 134). -/
def saleMessage (item : CartItem) : String :=
  "New Sale: \"" ++ item.book.title ++ "\" (x" ++ toString item.quantity ++ ")"

/-- The forEach body of handleConfirmCartPurchase (lines 130-135):
per line, quantity-many sale records, each stamped by its own new
Date() call (modelled as one clock tick per call), and one sale
message per line.  Returns the accumulated sale records and emitted
messages. -/
def recordPurchaseAux : List CartItem → Nat → List SaleRecord × List String
  | [], _ => ([], [])
  | item :: rest, clock =>
      (((List.range item.quantity).map fun i =>
          ({ bookId := item.book.id, timestamp := clock + i } : SaleRecord)) ++
        (recordPurchaseAux rest (clock + item.quantity)).1,
       saleMessage item :: (recordPurchaseAux rest (clock + item.quantity)).2)

/-- Notification built by addNotification (lines 38-43), with the
uuid and the Date modelled as counters. -/
def mkNotification (message : String) (uuid clock : Nat) : Notification :=
  { id := "uuid-" ++ toString uuid, message := message, timestamp := clock, read := false }

/-- Push a list of emitted messages through addNotification in order,
drawing fresh uuid and clock values for each. -/
def pushSaleNotifications : List String → Nat → Nat → List Notification → List Notification
  | [], _, _, log => log
  | m :: rest, uuid, clock, log =>
      pushSaleNotifications rest (uuid + 1) (clock + 1)
        (addNotification (mkNotification m uuid clock) log)

/-! ### Recommendation ingestion (handleSearch, lines 47-77) -/

/-- A validated raw book payload as delivered to the onItem callback
(field set per the external interface: title, author, summary,
category, publicationDate, pages). -/
structure BookData where
  title : String
  author : String
  summary : String
  category : String
  publicationDate : String
  pages : Nat
deriving DecidableEq, Repr

/-- An unvalidated raw payload from the recommendation stream: any of
the six expected fields may be missing. -/
structure RawPayload where
  title : Option String
  author : Option String
  summary : Option String
  category : Option String
  publicationDate : Option String
  pages : Option Nat
deriving DecidableEq, Repr

/-- Modelled from the spec: the recommendation service
(src/services/geminiService.ts is not under src/) validates each raw
payload for presence of title, author, summary, category, publication
date and page count; a payload missing any of these is silently
dropped without aborting the stream. -/
def validatePayload (raw : RawPayload) : Option BookData :=
  match raw.title, raw.author, raw.summary, raw.category, raw.publicationDate, raw.pages with
  | some t, some a, some s, some c, some p, some pg =>
      some { title := t, author := a, summary := s, category := c,
             publicationDate := p, pages := pg }
  | _, _, _, _, _, _ => none

/-- One triple of Math.random draws used by the onItem callback
(price in thousands of naira, rating in tenths, bestseller flag). -/
structure RandomDraws where
  priceDraw : Nat
  ratingDraw : Nat
  bestsellerDraw : Bool
deriving DecidableEq, Repr

/-- The external pseudo-random source, indexed by the uuid counter of
the item being synthesized. -/
structure Env where
  rng : Nat → RandomDraws

/-- The book constructed by the onItem callback (lines 54-64): fresh
uuid id, synthesized price, cover url derived from the id, synthesized
rating, empty reviews, synthesized bestseller flag. -/
def mkNewBook (bookData : BookData) (uuid : Nat) (draws : RandomDraws) : Book :=
  { id := "uuid-" ++ toString uuid
    title := bookData.title
    author := bookData.author
    summary := bookData.summary
    price := "₦" ++ toString (draws.priceDraw * 1000)
    coverImageUrl := "https://picsum.photos/seed/uuid-" ++ toString uuid ++ "/600/800"
    category := bookData.category
    rating := draws.ratingDraw
    reviews := []
    publicationDate := bookData.publicationDate
    pages := bookData.pages
    isBestseller := draws.bestsellerDraw }

/-- The inventory merge on graceful stream end (line 70): append the
new books whose id is not already present; never touch existing
entries. -/
def mergeInventory (prev newBooks : List Book) : List Book :=
  prev ++ newBooks.filter (fun nb => !(prev.any (fun ib => ib.id == nb.id)))

/-- Modelled from the spec: the fallback catalog
(src/data/prebuiltBooks.ts is not under src/) is a specific,
non-empty, fixed list of Books used as the initial DisplayedList and
as the recovery value on ingestion failure. -/
def prebuiltBooks : List Book :=
  [{ id := "prebuilt-1", title := "A Brief History of Time", author := "Stephen Hawking",
     summary := "From the Big Bang to black holes.", price := "₦18000",
     coverImageUrl := "https://picsum.photos/seed/prebuilt-1/600/800",
     category := "Science", rating := 48, reviews := [], publicationDate := "1988",
     pages := 212, isBestseller := true },
   { id := "prebuilt-2", title := "Clean Code", author := "Robert C. Martin",
     summary := "A handbook of agile software craftsmanship.", price := "₦22000",
     coverImageUrl := "https://picsum.photos/seed/prebuilt-2/600/800",
     category := "Computer Science", rating := 44, reviews := [], publicationDate := "2008",
     pages := 464, isBestseller := false }]

/-- The controller state owned by the Bookstore component
(lines 27-35), together with the counters that model uuid generation
and Date capture and, per search id, the newBooks list that the
source holds in the closure of each handleSearch call (line 50). -/
structure StoreState where
  displayedBooks : List Book
  inventory : List Book
  isLoading : Bool
  currentView : View
  salesData : List SaleRecord
  cart : List CartItem
  notifications : List Notification
  clock : Nat
  uuidCounter : Nat
  searchLocals : Nat → List Book

/-- Pointwise update of the per-search local lists. -/
def updateFn (f : Nat → List Book) (k : Nat) (v : List Book) : Nat → List Book :=
  fun n => if n = k then v else f n

/-- The observable events of one handleSearch call: its synchronous
start (lines 48-50), the arrival of one raw payload at the stream
callback (lines 52-68), graceful completion (line 70 and the finally
block), and stream failure (lines 71-76). -/
inductive SearchEvent where
  | start (sid : Nat)
  | item (sid : Nat) (raw : RawPayload)
  | success (sid : Nat)
  | failure (sid : Nat)

/-- One step of the ingestion pipeline.  start: set loading, clear the
displayed list and this call's newBooks closure.  item: validation
(spec-modelled, inside the service) drops malformed payloads; a valid
payload is synthesized into a Book, appended to this call's newBooks
and the displayed list is overwritten with a copy of newBooks.
success: merge this call's newBooks into the inventory.  failure:
reset the displayed list to the fallback catalog; the inventory is
not touched. -/
def stepEvent (env : Env) (st : StoreState) (ev : SearchEvent) : StoreState :=
  match ev with
  | .start sid =>
      { st with isLoading := true, displayedBooks := [],
                searchLocals := updateFn st.searchLocals sid [] }
  | .item sid raw =>
      match validatePayload raw with
      | none => st
      | some bookData =>
          { st with uuidCounter := st.uuidCounter + 1,
                    searchLocals := updateFn st.searchLocals sid
                      (st.searchLocals sid ++
                        [mkNewBook bookData st.uuidCounter (env.rng st.uuidCounter)]),
                    displayedBooks :=
                      st.searchLocals sid ++
                        [mkNewBook bookData st.uuidCounter (env.rng st.uuidCounter)] }
  | .success sid =>
      { st with isLoading := false,
                inventory := mergeInventory st.inventory (st.searchLocals sid) }
  | .failure _sid =>
      { st with isLoading := false, displayedBooks := prebuiltBooks }

/-- Run a schedule of search events, first event first. -/
def runEvents (env : Env) (st : StoreState) (evs : List SearchEvent) : StoreState :=
  evs.foldl (stepEvent env) st

/-- handleConfirmCartPurchase (lines 128-139): record the sales,
push one sale notification per cart line, append to the sales log,
clear the cart and return to the store view. -/
def handleConfirmCartPurchase (s : StoreState) : StoreState :=
  { s with
    salesData := s.salesData ++ (recordPurchaseAux s.cart s.clock).1
    cart := []
    currentView := View.store
    notifications := pushSaleNotifications (recordPurchaseAux s.cart s.clock).2
      s.uuidCounter (s.clock + totalCartItems s.cart) s.notifications
    uuidCounter := s.uuidCounter + (recordPurchaseAux s.cart s.clock).2.length
    clock := s.clock + totalCartItems s.cart + (recordPurchaseAux s.cart s.clock).2.length }

/-! ### Concrete data for the closed instantiations -/

/-- A concrete book used by the closed instantiations below. -/
def demoBookA : Book :=
  { id := "A", title := "Alpha Book", author := "Ann", summary := "s",
    price := "N20000", coverImageUrl := "u", category := "Science",
    rating := 40, reviews := [], publicationDate := "2020", pages := 100,
    isBestseller := false }

/-- A second concrete book with a distinct id. -/
def demoBookB : Book :=
  { id := "B", title := "Beta Book", author := "Bob", summary := "s",
    price := "N15000", coverImageUrl := "u", category := "History",
    rating := 37, reviews := [], publicationDate := "2021", pages := 200,
    isBestseller := true }

/-- A concrete notification used by the closed instantiations below. -/
def demoNotif (k : Nat) : Notification :=
  { id := "n" ++ toString k, message := "msg", timestamp := k, read := false }

/-- A concrete two-line cart matching the example of the spec:
[(A, qty 2), (B, qty 1)]. -/
def demoCart : List CartItem :=
  [{ book := demoBookA, quantity := 2 }, { book := demoBookB, quantity := 1 }]

/-- A concrete checkout state holding demoCart. -/
def demoPurchaseState : StoreState :=
  { displayedBooks := [], inventory := [], isLoading := false,
    currentView := View.checkout, salesData := [], cart := demoCart,
    notifications := [], clock := 5, uuidCounter := 0,
    searchLocals := fun _ => [] }

/-- A concrete checkout state with an empty cart. -/
def demoEmptyState : StoreState :=
  { displayedBooks := [], inventory := [], isLoading := false,
    currentView := View.checkout, salesData := [], cart := [],
    notifications := [demoNotif 0], clock := 3, uuidCounter := 0,
    searchLocals := fun _ => [] }

/-- A complete raw payload for the first (superseded) search. -/
def demoRawFirst : RawPayload :=
  { title := some "First Search Book", author := some "A1", summary := some "s1",
    category := some "Science", publicationDate := some "2019", pages := some 100 }

/-- A complete raw payload for the second search. -/
def demoRawSecond : RawPayload :=
  { title := some "Second Search Book", author := some "A2", summary := some "s2",
    category := some "History", publicationDate := some "2021", pages := some 200 }

/-- A third complete raw payload. -/
def demoRawThird : RawPayload :=
  { title := some "Third Search Book", author := some "A3", summary := some "s3",
    category := some "Math", publicationDate := some "2020", pages := some 300 }

/-- A raw payload with a missing author field. -/
def demoRawBad : RawPayload :=
  { title := some "No Author", author := none, summary := some "s3",
    category := some "Science", publicationDate := some "2022", pages := some 50 }

/-- The validated form of demoRawFirst. -/
def demoFirstData : BookData :=
  { title := "First Search Book", author := "A1", summary := "s1",
    category := "Science", publicationDate := "2019", pages := 100 }

/-- The validated form of demoRawSecond. -/
def demoSecondData : BookData :=
  { title := "Second Search Book", author := "A2", summary := "s2",
    category := "History", publicationDate := "2021", pages := 200 }

/-- A fixed draw oracle for the closed instantiations. -/
def demoEnv : Env := { rng := fun _ => { priceDraw := 20, ratingDraw := 40, bestsellerDraw := false } }

/-- The initial controller state (lines 27-35): both the displayed
list and the inventory start as the fallback catalog. -/
def demoInitState : StoreState :=
  { displayedBooks := prebuiltBooks, inventory := prebuiltBooks, isLoading := false,
    currentView := View.store, salesData := [], cart := [], notifications := [],
    clock := 0, uuidCounter := 0, searchLocals := fun _ => [] }

/-- The interleaving that exhibits the stale-callback overwrite:
search 0 starts, search 1 starts while 0 is pending, search 1 receives
its only item and completes, and only then does the still-running
stream of search 0 deliver an item to its callback. -/
def staleSchedule : List SearchEvent :=
  [SearchEvent.start 0, SearchEvent.start 1, SearchEvent.item 1 demoRawSecond,
   SearchEvent.success 1, SearchEvent.item 0 demoRawFirst]

/-! ### Cart lemmas -/

lemma totalCartItems_eq_sum (cart : List CartItem) :
    totalCartItems cart = (cart.map (fun item => item.quantity)).sum := by
  have h : ∀ (l : List CartItem) (n : Nat),
      l.foldl (fun total item => total + item.quantity) n
        = n + (l.map (fun item => item.quantity)).sum := by
    intro l
    induction l with
    | nil => intro n; simp
    | cons x xs ih =>
        intro n
        simp [List.foldl_cons, ih, Nat.add_assoc]
  simpa [totalCartItems] using h cart 0

lemma cartInv_nil : CartInv [] := by
  constructor
  · simp
  · intro item h; cases h

lemma map_id_preserved (cart : List CartItem) (f : CartItem → CartItem)
    (hf : ∀ item, (f item).book = item.book) :
    ((cart.map f).map (fun item => item.book.id)) = cart.map (fun item => item.book.id) := by
  induction cart with
  | nil => simp
  | cons x xs ih => simp [hf, ih]

lemma cartInv_add (b : Book) (cart : List CartItem) (h : CartInv cart) :
    CartInv (handleAddToCart b cart).1 := by
  obtain ⟨hnd, hpos⟩ := h
  unfold handleAddToCart
  cases hfind : cart.find? (fun item => item.book.id == b.id) with
  | some it =>
      constructor
      · rw [map_id_preserved]
        · exact hnd
        · intro item
          by_cases hid : item.book.id == b.id <;> simp [hid]
      · intro item hmem
        simp only [List.mem_map] at hmem
        obtain ⟨a, _, rfl⟩ := hmem
        by_cases hid : a.book.id == b.id <;> simp [hid]
        exact hpos a (by assumption)
  | none =>
      constructor
      · simp only [List.map_append, List.map_cons, List.map_nil]
        rw [List.nodup_append]
        refine ⟨hnd, List.nodup_singleton _, ?_⟩
        intro x hx hx'
        simp only [List.mem_map] at hx
        obtain ⟨a, ha, rfl⟩ := hx
        simp only [List.mem_singleton] at hx'
        have := List.find?_eq_none.mp hfind a ha
        simp only [beq_iff_eq] at this
        exact this hx'
      · intro item hmem
        rcases List.mem_append.mp hmem with hl | hr
        · exact hpos item hl
        · simp only [List.mem_singleton] at hr
          subst hr; simp

lemma cartInv_increase (i : String) (cart : List CartItem) (h : CartInv cart) :
    CartInv (handleIncreaseQuantity i cart) := by
  obtain ⟨hnd, hpos⟩ := h
  constructor
  · unfold handleIncreaseQuantity
    rw [map_id_preserved]
    · exact hnd
    · intro item
      by_cases hid : item.book.id == i <;> simp [hid]
  · intro item hmem
    unfold handleIncreaseQuantity at hmem
    simp only [List.mem_map] at hmem
    obtain ⟨a, ha, rfl⟩ := hmem
    by_cases hid : a.book.id == i <;> simp [hid]
    exact hpos a ha

lemma cartInv_filter (p : CartItem → Bool) (cart : List CartItem) (h : CartInv cart) :
    CartInv (cart.filter p) := by
  obtain ⟨hnd, hpos⟩ := h
  constructor
  · exact (hnd.sublist (List.Sublist.map _ (List.filter_sublist cart)))
  · intro item hmem
    exact hpos item (List.mem_of_mem_filter hmem)

lemma cartInv_decrease (i : String) (cart : List CartItem) (h : CartInv cart) :
    CartInv (handleDecreaseQuantity i cart) := by
  obtain ⟨hnd, hpos⟩ := h
  unfold handleDecreaseQuantity
  cases hfind : cart.find? (fun item => item.book.id == i) with
  | some it =>
      by_cases hq : it.quantity > 1
      · simp only [hq, if_true]
        constructor
        · rw [map_id_preserved]
          · exact hnd
          · intro item
            by_cases hid : item.book.id == i <;> simp [hid]
        · intro item hmem
          simp only [List.mem_map] at hmem
          obtain ⟨a, ha, rfl⟩ := hmem
          by_cases hid : a.book.id == i
          · have hit : it ∈ cart := List.mem_of_find?_eq_some hfind
            have hiti : it.book.id = i := by simpa using List.find?_some hfind
            have : a = it := by
              apply List.inj_on_of_nodup_map hnd ha hit
              simp only [beq_iff_eq] at hid
              rw [hid, hiti]
            subst this
            simp [hid]
            omega
          · simp [hid]
            exact hpos a ha
      · simp only [hq, if_false]
        exact cartInv_filter _ cart ⟨hnd, hpos⟩
  | none => exact cartInv_filter _ cart ⟨hnd, hpos⟩

lemma cartInv_step (cart : List CartItem) (op : CartOp) (h : CartInv cart) :
    CartInv (applyCartOp cart op) := by
  cases op with
  | add b => exact cartInv_add b cart h
  | increase i => exact cartInv_increase i cart h
  | decrease i => exact cartInv_decrease i cart h
  | remove b => exact cartInv_filter _ cart h

lemma cartInv_run (ops : List CartOp) (cart : List CartItem) (h : CartInv cart) :
    CartInv (applyCartOps ops cart) := by
  induction ops generalizing cart with
  | nil => simpa [applyCartOps]
  | cons op rest ih =>
      simp only [applyCartOps, List.foldl_cons]
      exact ih _ (cartInv_step cart op h)

lemma decrease_removes_of_all_one (i : String) (cart : List CartItem)
    (hall : ∀ item ∈ cart, item.book.id = i → item.quantity = 1) :
    ∀ item ∈ handleDecreaseQuantity i cart, item.book.id ≠ i := by
  intro item hmem
  unfold handleDecreaseQuantity at hmem
  cases hfind : cart.find? (fun it => it.book.id == i) with
  | some it =>
      rw [hfind] at hmem
      have hit : it ∈ cart := List.mem_of_find?_eq_some hfind
      have hiti : it.book.id = i := by simpa using List.find?_some hfind
      have hq : it.quantity = 1 := hall it hit hiti
      have : ¬ it.quantity > 1 := by omega
      simp only [this, if_false] at hmem
      have := List.of_mem_filter hmem
      simpa using this
  | none =>
      rw [hfind] at hmem
      have := List.of_mem_filter hmem
      simpa using this

/-! ### Notification log lemmas -/

lemma addNotification_length_le (n : Notification) (l : List Notification) :
    (addNotification n l).length ≤ 20 := by
  simp only [addNotification, List.length_cons, List.length_take]
  omega

lemma pushLog_length_le (log : List Notification) (h : log.length ≤ 20)
    (ns : List Notification) : (pushLog log ns).length ≤ 20 := by
  induction ns generalizing log with
  | nil => simpa [pushLog]
  | cons n rest ih =>
      simp only [pushLog, List.foldl_cons]
      exact ih (addNotification n log) (addNotification_length_le n log)

lemma not_mem_addNotification (x n : Notification) (l : List Notification)
    (hxn : x ≠ n) (hxl : x ∉ l) : x ∉ addNotification n l := by
  simp only [addNotification, List.mem_cons]
  rintro (rfl | hmem)
  · exact hxn rfl
  · exact hxl (List.take_subset 19 l hmem)

lemma not_mem_pushLog (log ps : List Notification) (x : Notification)
    (hxl : x ∉ log) (hxp : x ∉ ps) : x ∉ pushLog log ps := by
  induction ps generalizing log with
  | nil => simpa [pushLog]
  | cons n rest ih =>
      simp only [pushLog, List.foldl_cons]
      simp only [List.mem_cons, not_or] at hxp
      exact ih (addNotification n log) (not_mem_addNotification x n log hxp.1 hxl) hxp.2

lemma pushLog_append (log : List Notification) (p1 p2 : List Notification) :
    pushLog log (p1 ++ p2) = pushLog (pushLog log p1) p2 := by
  simp [pushLog, List.foldl_append]

/-! ### Claim theorems: cart and notifications -/

/-- C1: starting from the empty cart, after any sequence of
add/increase/decrease/remove operations the totalCartItems fold equals
the sum of the persisted quantities, every persisted line item has
positive quantity, and a decrease on an id whose persisted line has
quantity 1 removes that line entirely. -/
theorem cart_invariant_C1 :
    ∀ ops : List CartOp,
      totalCartItems (applyCartOps ops []) =
        ((applyCartOps ops []).map (fun item => item.quantity)).sum
      ∧ (∀ item ∈ applyCartOps ops [], 0 < item.quantity)
      ∧ (∀ i : String,
          (∀ item ∈ applyCartOps ops [], item.book.id = i → item.quantity = 1) →
          ∀ item ∈ handleDecreaseQuantity i (applyCartOps ops []), item.book.id ≠ i) := by
  intro ops
  have hinv := cartInv_run ops [] cartInv_nil
  exact ⟨totalCartItems_eq_sum _, hinv.2,
    fun i hall => decrease_removes_of_all_one i _ hall⟩

theorem cart_invariant_C1_witness :
    (∀ item ∈ applyCartOps [CartOp.add demoBookA] [], item.book.id = "A" → item.quantity = 1)
    ∧ (∀ item ∈ handleDecreaseQuantity "A" (applyCartOps [CartOp.add demoBookA] []),
        item.book.id ≠ "A") :=
  ⟨by decide, (cart_invariant_C1 [CartOp.add demoBookA]).2.2 "A" (by decide)⟩

/-- C5: from any log of at most 20 entries, after any sequence of
pushes the log still has at most 20 entries; the pushed notification
is at the front immediately after each push; and an entry absent at
some intermediate point and not among the remaining pushes never
reappears. -/
theorem notification_cap_C5 :
    ∀ log : List Notification, log.length ≤ 20 →
    ∀ ns : List Notification,
      (pushLog log ns).length ≤ 20
      ∧ (∀ (n : Notification) (l : List Notification),
          (addNotification n l).head? = some n)
      ∧ (∀ (x : Notification) (p1 p2 : List Notification), ns = p1 ++ p2 →
          x ∉ pushLog log p1 → x ∉ p2 → x ∉ pushLog log ns) := by
  intro log hlen ns
  refine ⟨pushLog_length_le log hlen ns, fun n l => rfl, ?_⟩
  intro x p1 p2 hsplit hgone hfresh
  rw [hsplit, pushLog_append]
  exact not_mem_pushLog _ p2 x hgone hfresh

theorem notification_cap_C5_witness :
    ([] : List Notification).length ≤ 20
    ∧ (pushLog [] [demoNotif 0, demoNotif 1]).length ≤ 20
    ∧ (addNotification (demoNotif 0) []).head? = some (demoNotif 0) :=
  ⟨by decide, (notification_cap_C5 [] (by decide) [demoNotif 0, demoNotif 1]).1,
   (notification_cap_C5 [] (by decide) []).2.1 (demoNotif 0) []⟩

/-- C7: adding a book whose id is already in the cart increments the
matching line by 1 in place (same books, same order, no notification);
adding a book whose id is absent appends a fresh line of quantity 1 at
the end and emits exactly one message containing the book title. -/
theorem add_to_cart_C7 :
    ∀ (cart : List CartItem) (book : Book),
      ((∃ item ∈ cart, item.book.id = book.id) →
        (handleAddToCart book cart).2 = []
        ∧ List.Forall₂ (fun old new =>
            new.book = old.book ∧
            new.quantity = old.quantity + (if old.book.id = book.id then 1 else 0))
          cart (handleAddToCart book cart).1)
      ∧ ((∀ item ∈ cart, item.book.id ≠ book.id) →
        (handleAddToCart book cart).1 = cart ++ [{ book := book, quantity := 1 }]
        ∧ ∃ a b : String, (handleAddToCart book cart).2 = [a ++ book.title ++ b]) := by
  intro cart book
  unfold handleAddToCart
  cases hfind : cart.find? (fun item => item.book.id == book.id) with
  | some it =>
      constructor
      · intro _
        refine ⟨rfl, ?_⟩
        rw [List.forall₂_map_right_iff]
        rw [List.forall₂_same]
        intro x _
        by_cases hid : x.book.id = book.id
        · simp [hid]
        · have hb : (x.book.id == book.id) = false := by simpa using hid
          simp [hb, hid]
      · intro hall
        exfalso
        have hit : it ∈ cart := List.mem_of_find?_eq_some hfind
        have hiti : it.book.id = book.id := by simpa using List.find?_some hfind
        exact hall it hit hiti
  | none =>
      constructor
      · intro hex
        exfalso
        obtain ⟨item, hmem, hid⟩ := hex
        have := List.find?_eq_none.mp hfind item hmem
        simp only [beq_iff_eq] at this
        exact this hid
      · intro _
        exact ⟨rfl, "\"", "\" added to cart.", rfl⟩

theorem add_to_cart_C7_witness :
    (handleAddToCart demoBookA [{ book := demoBookA, quantity := 1 }]).2 = []
    ∧ (handleAddToCart demoBookB [{ book := demoBookA, quantity := 1 }]).1
        = [{ book := demoBookA, quantity := 1 }] ++ [{ book := demoBookB, quantity := 1 }] :=
  ⟨((add_to_cart_C7 [{ book := demoBookA, quantity := 1 }] demoBookA).1 (by decide)).1,
   ((add_to_cart_C7 [{ book := demoBookA, quantity := 1 }] demoBookB).2 (by decide)).1⟩

/-! ### Sales aggregation lemmas -/

lemma recordPurchase_msgs (cart : List CartItem) (c : Nat) :
    (recordPurchaseAux cart c).2 = cart.map saleMessage := by
  induction cart generalizing c with
  | nil => rfl
  | cons x rest ih => simp [recordPurchaseAux, ih]

lemma recordPurchase_ids (cart : List CartItem) (c : Nat) (r : SaleRecord)
    (h : r ∈ (recordPurchaseAux cart c).1) : ∃ item ∈ cart, r.bookId = item.book.id := by
  induction cart generalizing c with
  | nil => simp [recordPurchaseAux] at h
  | cons x rest ih =>
      simp only [recordPurchaseAux, List.mem_append, List.mem_map, List.mem_range] at h
      rcases h with ⟨i, _, rfl⟩ | h
      · exact ⟨x, List.mem_cons_self _ _, rfl⟩
      · obtain ⟨item, hmem, hid⟩ := ih (c + x.quantity) h
        exact ⟨item, List.mem_cons_of_mem _ hmem, hid⟩

lemma recordPurchase_timestamps (cart : List CartItem) (c : Nat) :
    (recordPurchaseAux cart c).1.map (fun r => r.timestamp)
      = (List.range ((cart.map fun item => item.quantity).sum)).map (fun i => c + i) := by
  induction cart generalizing c with
  | nil => simp [recordPurchaseAux]
  | cons x rest ih =>
      simp only [recordPurchaseAux, List.map_append, List.map_map, List.map_cons,
        List.sum_cons]
      rw [ih (c + x.quantity), List.range_add]
      simp [List.map_map, Function.comp, Nat.add_assoc]

lemma recordPurchase_length (cart : List CartItem) (c : Nat) :
    (recordPurchaseAux cart c).1.length = totalCartItems cart := by
  have h := congrArg List.length (recordPurchase_timestamps cart c)
  simpa [totalCartItems_eq_sum] using h

lemma recordPurchase_count (cart : List CartItem) (c : Nat)
    (hnd : (cart.map fun item => item.book.id).Nodup) :
    ∀ item ∈ cart,
      ((recordPurchaseAux cart c).1.filter (fun r => r.bookId == item.book.id)).length
        = item.quantity := by
  induction cart generalizing c with
  | nil => intro item h; cases h
  | cons x rest ih =>
      intro item hmem
      simp only [List.map_cons, List.nodup_cons] at hnd
      obtain ⟨hx, hrest⟩ := hnd
      simp only [recordPurchaseAux, List.filter_append, List.length_append]
      rcases List.mem_cons.mp hmem with rfl | hmem'
      · have h1 : (((List.range item.quantity).map fun i =>
            ({ bookId := item.book.id, timestamp := c + i } : SaleRecord)).filter
              (fun r => r.bookId == item.book.id)).length = item.quantity := by
          rw [List.filter_eq_self.mpr]
          · simp
          · intro r hr
            simp only [List.mem_map] at hr
            obtain ⟨i, _, rfl⟩ := hr
            simp
        have h2 : ((recordPurchaseAux rest (c + item.quantity)).1.filter
            (fun r => r.bookId == item.book.id)).length = 0 := by
          rw [List.length_eq_zero, List.filter_eq_nil_iff]
          intro r hr
          obtain ⟨it, hit, hid⟩ := recordPurchase_ids rest (c + item.quantity) r hr
          simp only [beq_iff_eq, hid]
          intro hcontra
          exact hx (List.mem_map.mpr ⟨it, hit, hcontra⟩)
        omega
      · have h1 : (((List.range x.quantity).map fun i =>
            ({ bookId := x.book.id, timestamp := c + i } : SaleRecord)).filter
              (fun r => r.bookId == item.book.id)).length = 0 := by
          rw [List.length_eq_zero, List.filter_eq_nil_iff]
          intro r hr
          simp only [List.mem_map] at hr
          obtain ⟨i, _, rfl⟩ := hr
          simp only [beq_iff_eq]
          intro hcontra
          exact hx (List.mem_map.mpr ⟨item, hmem', hcontra.symm⟩)
        have h2 := ih (c + x.quantity) hrest item hmem'
        omega

/-! ### Claim theorems: sales aggregation -/

/-- C4: confirming a purchase on a cart whose line ids are distinct
appends to the sales log, per line of quantity N, exactly N sale
records carrying that line's book id; every record belongs to some
line; the records' timestamps are the consecutive clock values
captured at the call; and exactly one sale message is emitted per
line, containing the line's title and quantity. -/
theorem confirm_purchase_C4 :
    ∀ s : StoreState, (s.cart.map fun item => item.book.id).Nodup →
      (handleConfirmCartPurchase s).salesData
          = s.salesData ++ (recordPurchaseAux s.cart s.clock).1
      ∧ (recordPurchaseAux s.cart s.clock).1.length = totalCartItems s.cart
      ∧ (∀ item ∈ s.cart,
          ((recordPurchaseAux s.cart s.clock).1.filter
            (fun r => r.bookId == item.book.id)).length = item.quantity)
      ∧ (∀ r ∈ (recordPurchaseAux s.cart s.clock).1,
          ∃ item ∈ s.cart, r.bookId = item.book.id)
      ∧ (recordPurchaseAux s.cart s.clock).1.map (fun r => r.timestamp)
          = (List.range (totalCartItems s.cart)).map (fun i => s.clock + i)
      ∧ (recordPurchaseAux s.cart s.clock).2 = s.cart.map saleMessage
      ∧ (∀ item ∈ s.cart, ∃ a b c : String,
          saleMessage item = a ++ item.book.title ++ b ++ toString item.quantity ++ c) := by
  intro s hnd
  refine ⟨rfl, recordPurchase_length s.cart s.clock, recordPurchase_count s.cart s.clock hnd,
    fun r hr => recordPurchase_ids s.cart s.clock r hr, ?_,
    recordPurchase_msgs s.cart s.clock,
    fun item _ => ⟨"New Sale: \"", "\" (x", ")", rfl⟩⟩
  rw [recordPurchase_timestamps s.cart s.clock, totalCartItems_eq_sum]

theorem confirm_purchase_C4_witness :
    (demoCart.map fun item => item.book.id).Nodup
    ∧ (recordPurchaseAux demoCart 5).1.length = totalCartItems demoCart
    ∧ (recordPurchaseAux demoCart 5).2 = demoCart.map saleMessage :=
  ⟨by decide, (confirm_purchase_C4 demoPurchaseState (by decide)).2.1,
   (confirm_purchase_C4 demoPurchaseState (by decide)).2.2.2.2.2.1⟩

/-- C9: confirming a purchase on an empty cart appends no sale record,
emits no notification, leaves the cart empty and returns to the store
view. -/
theorem empty_cart_purchase_C9 :
    ∀ s : StoreState, s.cart = [] →
      (handleConfirmCartPurchase s).salesData = s.salesData
      ∧ (handleConfirmCartPurchase s).notifications = s.notifications
      ∧ (handleConfirmCartPurchase s).cart = []
      ∧ (handleConfirmCartPurchase s).currentView = View.store := by
  intro s h
  refine ⟨?_, ?_, rfl, rfl⟩
  · simp [handleConfirmCartPurchase, h, recordPurchaseAux]
  · simp [handleConfirmCartPurchase, h, recordPurchaseAux, pushSaleNotifications]

theorem empty_cart_purchase_C9_witness :
    demoEmptyState.cart = ([] : List CartItem)
    ∧ (handleConfirmCartPurchase demoEmptyState).salesData = demoEmptyState.salesData
    ∧ (handleConfirmCartPurchase demoEmptyState).notifications = demoEmptyState.notifications :=
  ⟨rfl, (empty_cart_purchase_C9 demoEmptyState rfl).1,
   (empty_cart_purchase_C9 demoEmptyState rfl).2.1⟩

/-! ### Ingestion lemmas -/

lemma validatePayload_none_iff (raw : RawPayload) :
    validatePayload raw = none ↔
      (raw.title = none ∨ raw.author = none ∨ raw.summary = none ∨
       raw.category = none ∨ raw.publicationDate = none ∨ raw.pages = none) := by
  rcases raw with ⟨t, a, s, c, p, g⟩
  cases t <;> cases a <;> cases s <;> cases c <;> cases p <;> cases g <;>
    simp [validatePayload]

lemma uuid_data_head (t : String) : ("uuid-" ++ t).data.head? = some 'u' := rfl

lemma prebuilt_first_id_ne_uuid (n : Nat) :
    ("prebuilt-1" : String) ≠ "uuid-" ++ toString n := by
  intro h
  have h2 : ("prebuilt-1" : String).data.head? = ("uuid-" ++ toString n).data.head? :=
    congrArg (fun s => s.data.head?) h
  rw [uuid_data_head] at h2
  exact absurd h2 (by decide)

/-! ### Claim theorems: ingestion pipeline -/

/-- C10: the synchronous part of handleSearch clears the displayed
list (and sets the loading flag) before any stream item can arrive,
so after the start event and before the first item callback the
displayed list is empty. -/
theorem search_start_clears_C10 :
    ∀ (env : Env) (st : StoreState) (sid : Nat),
      (stepEvent env st (SearchEvent.start sid)).displayedBooks = []
      ∧ (stepEvent env st (SearchEvent.start sid)).isLoading = true
      ∧ (runEvents env st [SearchEvent.start sid]).displayedBooks = [] := by
  intro env st sid
  exact ⟨rfl, rfl, rfl⟩

/-- C3: a payload is dropped by validation exactly when one of the six
required fields is missing, and a stream of three valid payloads
followed by a malformed one and graceful completion displays exactly
the three valid books in arrival order and merges exactly those three
into the inventory. -/
theorem ingest_validation_C3 :
    ∀ (env : Env) (st0 : StoreState) (sid : Nat) (r1 r2 r3 rbad : RawPayload)
      (b1 b2 b3 : BookData),
      validatePayload r1 = some b1 → validatePayload r2 = some b2 →
      validatePayload r3 = some b3 → validatePayload rbad = none →
      (runEvents env st0 [SearchEvent.start sid, SearchEvent.item sid r1,
          SearchEvent.item sid r2, SearchEvent.item sid r3, SearchEvent.item sid rbad,
          SearchEvent.success sid]).displayedBooks
        = [mkNewBook b1 st0.uuidCounter (env.rng st0.uuidCounter),
           mkNewBook b2 (st0.uuidCounter + 1) (env.rng (st0.uuidCounter + 1)),
           mkNewBook b3 (st0.uuidCounter + 2) (env.rng (st0.uuidCounter + 2))]
      ∧ (runEvents env st0 [SearchEvent.start sid, SearchEvent.item sid r1,
          SearchEvent.item sid r2, SearchEvent.item sid r3, SearchEvent.item sid rbad,
          SearchEvent.success sid]).displayedBooks.length = 3
      ∧ (runEvents env st0 [SearchEvent.start sid, SearchEvent.item sid r1,
          SearchEvent.item sid r2, SearchEvent.item sid r3, SearchEvent.item sid rbad,
          SearchEvent.success sid]).inventory
        = mergeInventory st0.inventory
            [mkNewBook b1 st0.uuidCounter (env.rng st0.uuidCounter),
             mkNewBook b2 (st0.uuidCounter + 1) (env.rng (st0.uuidCounter + 1)),
             mkNewBook b3 (st0.uuidCounter + 2) (env.rng (st0.uuidCounter + 2))]
      ∧ (∀ raw : RawPayload, validatePayload raw = none ↔
          (raw.title = none ∨ raw.author = none ∨ raw.summary = none ∨
           raw.category = none ∨ raw.publicationDate = none ∨ raw.pages = none)) := by
  intro env st0 sid r1 r2 r3 rbad b1 b2 b3 h1 h2 h3 hbad
  refine ⟨?_, ?_, ?_, validatePayload_none_iff⟩
  · simp [runEvents, stepEvent, h1, h2, h3, hbad, updateFn]
  · simp [runEvents, stepEvent, h1, h2, h3, hbad, updateFn]
  · simp [runEvents, stepEvent, h1, h2, h3, hbad, updateFn]

theorem ingest_validation_C3_witness :
    validatePayload demoRawBad = none
    ∧ (runEvents demoEnv demoInitState [SearchEvent.start 7, SearchEvent.item 7 demoRawFirst,
        SearchEvent.item 7 demoRawSecond, SearchEvent.item 7 demoRawThird,
        SearchEvent.item 7 demoRawBad, SearchEvent.success 7]).displayedBooks.length = 3 :=
  ⟨rfl, (ingest_validation_C3 demoEnv demoInitState 7 demoRawFirst demoRawSecond demoRawThird
      demoRawBad _ _ _ rfl rfl rfl rfl).2.1⟩

/-- C6: a failure event resets the displayed list to the fixed
non-empty fallback catalog, leaves the inventory of the failed request
untouched (item events never touch the inventory either), and the
resulting list is neither the partial generated items (whose ids all
carry the fresh uuid form) nor the empty list. -/
theorem stream_failure_C6 :
    ∀ (env : Env) (st : StoreState) (sid : Nat),
      (stepEvent env st (SearchEvent.failure sid)).displayedBooks = prebuiltBooks
      ∧ prebuiltBooks ≠ []
      ∧ (stepEvent env st (SearchEvent.failure sid)).inventory = st.inventory
      ∧ (∀ raw : RawPayload,
          (stepEvent env st (SearchEvent.item sid raw)).inventory = st.inventory)
      ∧ (∀ (bookData : BookData) (uuid : Nat) (draws : RandomDraws),
          (mkNewBook bookData uuid draws).id = "uuid-" ++ toString uuid)
      ∧ (∀ partialItems : List Book,
          (∀ b ∈ partialItems, ∃ n : Nat, b.id = "uuid-" ++ toString n) →
          (stepEvent env st (SearchEvent.failure sid)).displayedBooks ≠ partialItems
          ∧ (stepEvent env st (SearchEvent.failure sid)).displayedBooks ≠ ([] : List Book)) := by
  intro env st sid
  refine ⟨rfl, by simp [prebuiltBooks], rfl, ?_, fun b u d => rfl, ?_⟩
  · intro raw
    cases hv : validatePayload raw <;> simp [stepEvent, hv]
  · intro partialItems hids
    constructor
    · show prebuiltBooks ≠ partialItems
      intro heq
      have hmem : ("prebuilt-1" : String) ∈ partialItems.map Book.id := by
        rw [← heq]
        simp [prebuiltBooks]
      obtain ⟨b, hb, hbid⟩ := List.mem_map.mp hmem
      obtain ⟨n, hn⟩ := hids b hb
      rw [hn] at hbid
      exact prebuilt_first_id_ne_uuid n hbid.symm
    · show prebuiltBooks ≠ ([] : List Book)
      simp [prebuiltBooks]

theorem stream_failure_C6_witness :
    (stepEvent demoEnv demoInitState (SearchEvent.failure 0)).displayedBooks = prebuiltBooks
    ∧ (stepEvent demoEnv demoInitState (SearchEvent.failure 0)).displayedBooks
        ≠ [mkNewBook demoFirstData 0 (demoEnv.rng 0)] :=
  ⟨(stream_failure_C6 demoEnv demoInitState 0).1,
   ((stream_failure_C6 demoEnv demoInitState 0).2.2.2.2.2
      [mkNewBook demoFirstData 0 (demoEnv.rng 0)]
      (by
        intro b hb
        rw [List.mem_singleton] at hb
        subst hb
        exact ⟨0, rfl⟩)).1⟩

/-- C8: on graceful stream end the inventory becomes the merge of the
previous inventory with the accumulated books; the merge appends the
previous inventory unchanged followed only by stream books whose id
was absent, appends every stream book whose id was absent, and keeps
every previous entry. -/
theorem inventory_merge_C8 :
    ∀ (env : Env) (st : StoreState) (sid : Nat) (prev newBooks : List Book),
      (stepEvent env st (SearchEvent.success sid)).inventory
        = mergeInventory st.inventory (st.searchLocals sid)
      ∧ (∃ rest, mergeInventory prev newBooks = prev ++ rest
          ∧ ∀ b ∈ rest, b ∈ newBooks ∧ ∀ ib ∈ prev, ib.id ≠ b.id)
      ∧ (∀ nb ∈ newBooks, (∀ ib ∈ prev, ib.id ≠ nb.id) → nb ∈ mergeInventory prev newBooks)
      ∧ (∀ ib ∈ prev, ib ∈ mergeInventory prev newBooks) := by
  intro env st sid prev newBooks
  refine ⟨rfl,
    ⟨newBooks.filter (fun nb => !(prev.any (fun ib => ib.id == nb.id))), rfl, ?_⟩, ?_, ?_⟩
  · intro b hb
    rw [List.mem_filter] at hb
    refine ⟨hb.1, ?_⟩
    intro ib hib hcontra
    have hfalse : prev.any (fun x => x.id == b.id) = false := by
      simpa using hb.2
    have htrue : prev.any (fun x => x.id == b.id) = true :=
      List.any_eq_true.mpr ⟨ib, hib, by simp [hcontra]⟩
    rw [htrue] at hfalse
    cases hfalse
  · intro nb hnb hids
    unfold mergeInventory
    apply List.mem_append_right
    rw [List.mem_filter]
    refine ⟨hnb, ?_⟩
    cases hany : prev.any (fun ib => ib.id == nb.id) with
    | false => rfl
    | true =>
        exfalso
        obtain ⟨ib, hib, hid⟩ := List.any_eq_true.mp hany
        exact hids ib hib (by simpa using hid)
  · intro ib hib
    exact List.mem_append_left _ hib

theorem inventory_merge_C8_witness :
    demoBookB ∈ mergeInventory [demoBookA] [demoBookB]
    ∧ demoBookA ∈ mergeInventory [demoBookA] [demoBookB] :=
  ⟨(inventory_merge_C8 demoEnv demoInitState 0 [demoBookA] [demoBookB]).2.2.1 demoBookB
      (by decide) (by decide),
   (inventory_merge_C8 demoEnv demoInitState 0 [demoBookA] [demoBookB]).2.2.2 demoBookA
      (by decide)⟩

/-- C2 fails on the code: handleSearch installs no generation token,
so when search 0 is still streaming after search 1 has completed, the
stale callback of search 0 overwrites the displayed list with search
0 accumulated items.  At the moment search 1 completes the displayed
list is exactly its single item, but after the late item of search 0
the displayed list equals search 0 items and differs from the
completed search 1 items. -/
theorem search_supersede_C2_codebug :
    (runEvents demoEnv demoInitState (staleSchedule.take 4)).displayedBooks
      = [mkNewBook demoSecondData 0 (demoEnv.rng 0)]
    ∧ (runEvents demoEnv demoInitState staleSchedule).searchLocals 1
      = [mkNewBook demoSecondData 0 (demoEnv.rng 0)]
    ∧ (runEvents demoEnv demoInitState staleSchedule).displayedBooks
      = [mkNewBook demoFirstData 1 (demoEnv.rng 1)]
    ∧ (runEvents demoEnv demoInitState staleSchedule).displayedBooks
      ≠ (runEvents demoEnv demoInitState staleSchedule).searchLocals 1 := by
  refine ⟨rfl, rfl, rfl, ?_⟩
  decide

end FPBStore
